import Mathlib

/-!
Shallow embedding of the techXchange-lab-data repository: a RAG (retrieval-
augmented generation) notebook (`Langchain-lab-notebook.ipynb`) that indexes a
corpus of passages into an Elasticsearch vector index and answers questions by
retrieval plus generation, together with the OpenAPI document describing the
`/query` HTTP endpoint that fronts the query pipeline.

Pure notebook computations (the `indextext` blob, the generation parameters,
the random index name, the drop-and-recreate indexing cell) are translated
directly from the notebook cells.  The parts of the pipeline that the notebook
delegates to external libraries and services (LangChain `RetrievalQA`,
`ElasticsearchStore` retrieval, the deployed endpoint service) are not in the
repository; those definitions are modelled from the specification and are
marked as such in their doc comments.
-/

namespace RagLab

/-- A row of the corpus file `psgs.tsv`: columns `id`, `title`, `text`
(notebook cell reading `pd.read_csv(.../psgs.tsv, sep=TAB)`). -/
structure Passage where
  id : Int
  title : String
  text : String
deriving Repr, DecidableEq

/-- Notebook: `documents['indextext'] = documents['title'].astype(str) + "\n" + documents['text']`. -/
def indextext (p : Passage) : String :=
  p.title ++ "\n" ++ p.text

/-- The per-document metadata the notebook attaches at indexing time:
`{'title': title, 'id': doc_id}`. -/
structure DocMetadata where
  title : String
  id : Int
deriving Repr, DecidableEq

/-- The `Document` schema of the OpenAPI document: `page_content`, `metadata`
(title, id) and `type`. -/
structure Document where
  page_content : String
  metadata : DocMetadata
  type : String
deriving Repr, DecidableEq

/-- A document stored in the vector index: the Elasticsearch record created by
`add_texts` — the id string passed in `ids=[str(i) for i in documents.id]`,
the dense vector produced by the embedding function, the indexed text and the
metadata. -/
structure IndexedDocument where
  id : String
  vector : List Rat
  text : String
  metadata : DocMetadata
deriving Repr, DecidableEq

/-- The state of the Elasticsearch cluster, as far as the notebook observes
it: a partial map from index name to the list of stored documents. -/
def IndexState : Type :=
  String → Option (List IndexedDocument)

/-- `es_connection.indices.exists(index=name)`. -/
def indexExists (s : IndexState) (name : String) : Bool :=
  (s name).isSome

/-- `es_connection.indices.delete(index=name)`. -/
def deleteIndex (s : IndexState) (name : String) : IndexState :=
  fun m => if m = name then none else s m

/-- Writing a full document list under an index name (the result of bulk
indexing into a fresh or existing index). -/
def setIndex (s : IndexState) (name : String) (ds : List IndexedDocument) : IndexState :=
  fun m => if m = name then some ds else s m

/-- The documents currently stored under an index name; an absent index holds
no documents. -/
def getIndex (s : IndexState) (name : String) : List IndexedDocument :=
  (s name).getD []

/-- `es_connection.count(index=name)["count"]`. -/
def docCount (s : IndexState) (name : String) : Nat :=
  (getIndex s name).length

/-- Modelled from the spec: the Vector Store upsert contract (`upsert(items)`,
documents keyed by id, ids unique within an index generation).  Writing a
document whose id is already present replaces the stored document; otherwise
the document is appended. -/
def upsertDoc (docs : List IndexedDocument) (d : IndexedDocument) : List IndexedDocument :=
  if docs.any (fun e => e.id == d.id) then
    docs.map (fun e => if e.id == d.id then d else e)
  else
    docs ++ [d]

/-- The LangChain `ElasticsearchStore` as the notebook constructs it:
`ElasticsearchStore(index_name=indexName, embedding=emb_func, ...,
distance_strategy="DOT_PRODUCT")`.  The embedding function converts text to a
dense vector (modelled over the rationals). -/
structure KnowledgeBase where
  index_name : String
  embedding : String → List Rat

/-- The `distance_strategy` argument of the notebook's `ElasticsearchStore`. -/
def distance_strategy : String :=
  "DOT_PRODUCT"

/-- The document `add_texts` creates for one passage: text is the passage's
`indextext` blob, the vector is its embedding, the id is `str(passage.id)` and
the metadata is `{'title': title, 'id': doc_id}`. -/
def mkIndexedDocument (emb : String → List Rat) (p : Passage) : IndexedDocument :=
  { id := toString p.id
    vector := emb (indextext p)
    text := indextext p
    metadata := { title := p.title, id := p.id } }

/-- `knowledge_base.add_texts(texts=documents.indextext.tolist(), metadatas=...,
index_name=indexName, ids=[str(i) for i in documents.id])`: each passage's blob
is embedded and upserted by id into the named index. -/
def addTexts (kb : KnowledgeBase) (s : IndexState) (ps : List Passage) : IndexState :=
  setIndex s kb.index_name
    ((ps.map (mkIndexedDocument kb.embedding)).foldl upsertDoc (getIndex s kb.index_name))

/-- The notebook's indexing cell: `if es_connection.indices.exists(index=indexName):
es_connection.indices.delete(index=indexName)` followed by `add_texts`. -/
def runIndexing (kb : KnowledgeBase) (s : IndexState) (ps : List Passage) : IndexState :=
  let s1 := if indexExists s kb.index_name then deleteIndex s kb.index_name else s
  addTexts kb s1 ps

/-- Notebook: `indexName = f"lab-langchain-test-{random.randint(0,2000)}"`,
as a function of the random draw `r`. -/
def indexName (r : Nat) : String :=
  "lab-langchain-test-" ++ toString r

/-- The generation parameters of the notebook's `parameters` cell:
decoding method, minimum and maximum number of new tokens. -/
structure GenParams where
  decoding_method : String
  min_new_tokens : Nat
  max_new_tokens : Nat
deriving Repr, DecidableEq

/-- Notebook: `parameters = { GenParams.DECODING_METHOD: 'greedy',
GenParams.MIN_NEW_TOKENS: 1, GenParams.MAX_NEW_TOKENS: 50 }`, passed to
`WatsonxLLM(..., params=parameters)`. -/
def parameters : GenParams :=
  { decoding_method := "greedy", min_new_tokens := 1, max_new_tokens := 50 }

/-- Dot product of two dense vectors (the `DOT_PRODUCT` distance strategy the
notebook configures on its `ElasticsearchStore`). -/
def dotProduct : List Rat → List Rat → Rat
  | [], _ => 0
  | _, [] => 0
  | a :: as, b :: bs => a * b + dotProduct as bs

/-- Similarity score of a stored document against a query vector. -/
def simScore (qv : List Rat) (d : IndexedDocument) : Rat :=
  dotProduct qv d.vector

/-- Modelled from the spec: the nearest-neighbour search the notebook delegates
to Elasticsearch via `knowledge_base.as_retriever()` —
`search(queryVector, k) -> ranked items`: the stored documents sorted by
descending dot-product similarity to the query vector, truncated to the top
`k`. -/
def retrieve (docs : List IndexedDocument) (qv : List Rat) (k : Nat) : List IndexedDocument :=
  (docs.insertionSort (fun a b => simScore qv b ≤ simScore qv a)).take k

/-- Modelled from the spec: the "stuff"-style prompt assembly of LangChain's
`RetrievalQA.from_chain_type(..., chain_type="stuff", ...)`, which is not in
the repository — the retrieved documents' text in ranked order, injected
verbatim, followed by the original query. -/
def buildPrompt (docs : List IndexedDocument) (query : String) : String :=
  String.intercalate "\n\n" (docs.map IndexedDocument.text) ++ "\n\n" ++ query

/-- A retrieved document as it appears in a response's `source_documents`,
per the OpenAPI `Document` schema. -/
def toDocument (d : IndexedDocument) : Document :=
  { page_content := d.text, metadata := d.metadata, type := "Document" }

/-- The `QueryResponse` schema of the OpenAPI document: the original query,
the generated result, and the source documents. -/
structure QueryResponse where
  query : String
  result : String
  source_documents : List Document
deriving Repr, DecidableEq

/-- One call to an external provider, recorded so that statements about which
providers a request reaches can be made: embedding the query text, the vector
store search, or a generation call with its prompt and parameters. -/
inductive ProviderCall where
  | embed (text : String)
  | search (k : Nat)
  | generate (prompt : String) (params : GenParams)
deriving Repr, DecidableEq

/-- The query vector the pipeline retrieves with: the query string embedded by
the knowledge base's embedding function (the same `emb_func` the notebook
passed to `ElasticsearchStore`). -/
def queryVector (kb : KnowledgeBase) (q : String) : List Rat :=
  kb.embedding q

/-- Modelled from the spec: the Query Pipeline `answer(query, k)` the notebook
drives through `qa({"query": question})`, whose implementation (LangChain's
`RetrievalQA` chain) is not in the repository.  Embed the query, retrieve the
top-k documents by similarity, build the stuff prompt, call the generation
provider with the fixed `parameters`, and return the original query, the
generated text and the retrieved documents; a generation failure is an error.
The second component records the provider calls made. -/
def answerTrace (kb : KnowledgeBase) (gen : String → GenParams → Except String String)
    (k : Nat) (s : IndexState) (query : String) :
    Except String QueryResponse × List ProviderCall :=
  let docs := retrieve (getIndex s kb.index_name) (queryVector kb query) k
  let prompt := buildPrompt docs query
  (match gen prompt parameters with
   | .error e => .error e
   | .ok text =>
     .ok { query := query, result := text, source_documents := docs.map toDocument },
   [ProviderCall.embed query, ProviderCall.search k,
    ProviderCall.generate prompt parameters])

/-- The Query Pipeline's result, without the provider-call trace. -/
def answer (kb : KnowledgeBase) (gen : String → GenParams → Except String String)
    (k : Nat) (s : IndexState) (query : String) : Except String QueryResponse :=
  (answerTrace kb gen k s query).1

/-- An incoming HTTP request to `POST /query`: the optional `apikey` header
and the optional `query` field of the JSON body (absent when the required
field is missing). -/
structure RawRequest where
  apikey : Option String
  query : Option String
deriving Repr, DecidableEq

/-- The `ErrorResponse` schema of the OpenAPI document. -/
structure ErrorResponse where
  detail : String
deriving Repr, DecidableEq

/-- The possible responses of `POST /query`: 200 with a `QueryResponse`, 401
unauthorized, a 400-class schema-validation rejection, or 500 with an
`ErrorResponse`. -/
inductive HttpResponse where
  | ok (body : QueryResponse)
  | unauthorized
  | validationError (detail : String)
  | serverError (detail : String)
deriving Repr, DecidableEq

/-- The HTTP status code of a response. -/
def status : HttpResponse → Nat
  | .ok _ => 200
  | .unauthorized => 401
  | .validationError _ => 400
  | .serverError _ => 500

/-- The `QueryResponse` body carried by a response, if any. -/
def responseBody : HttpResponse → Option QueryResponse
  | .ok r => some r
  | _ => none

/-- The `ErrorResponse` body carried by a response, if any. -/
def errorBody : HttpResponse → Option ErrorResponse
  | .serverError e => some { detail := e }
  | _ => none

/-- Modelled from the spec: validation of the presented API key against the
set of accepted keys (the `ApiKeyAuth` scheme of the OpenAPI document; the
deployed service's key check is not in the repository). -/
def validKey (keys : List String) (k : String) : Bool :=
  keys.contains k

/-- Modelled from the spec: the `/query` endpoint service described by the
OpenAPI document, whose implementation is not in the repository.  A missing or
invalid `apikey` header is rejected with 401 before anything else; the request
body is then validated against the `QueryRequest` schema, which requires the
`query` field to be present and be a string (the schema imposes no minimum
length); a schema-valid request runs the Query Pipeline, whose error is
surfaced as 500.  The second component records the provider calls made. -/
def handleQueryTrace (kb : KnowledgeBase) (gen : String → GenParams → Except String String)
    (k : Nat) (keys : List String) (s : IndexState) (req : RawRequest) :
    HttpResponse × List ProviderCall :=
  match req.apikey with
  | none => (.unauthorized, [])
  | some key =>
    if validKey keys key then
      match req.query with
      | none => (.validationError "field required", [])
      | some q =>
        let res := answerTrace kb gen k s q
        (match res.1 with
         | .ok r => .ok r
         | .error e => .serverError e,
         res.2)
    else (.unauthorized, [])

/-- The endpoint's response, without the provider-call trace. -/
def handleQuery (kb : KnowledgeBase) (gen : String → GenParams → Except String String)
    (k : Nat) (keys : List String) (s : IndexState) (req : RawRequest) : HttpResponse :=
  (handleQueryTrace kb gen k keys s req).1

/-- Whether a request's `apikey` header is present and valid. -/
def authOk (keys : List String) : Option String → Bool
  | none => false
  | some k => validKey keys k

/-! Concrete fixtures (the two-passage corpus of the spec's end-to-end
scenario) used to instantiate the theorems below on closed inputs. -/

/-- The first passage of the spec's end-to-end scenario. -/
def p1 : Passage :=
  { id := 1, title := "A", text := "Paris is the capital of France." }

/-- The second passage of the spec's end-to-end scenario. -/
def p2 : Passage :=
  { id := 2, title := "B", text := "Tokyo is the capital of Japan." }

/-- A concrete embedding function: the length of the text as a one-dimensional
vector. -/
def emb0 : String → List Rat :=
  fun t => [(t.length : Rat)]

/-- A concrete knowledge base over `emb0` with a concrete drawn index name. -/
def kb0 : KnowledgeBase :=
  { index_name := indexName 7, embedding := emb0 }

/-- A concrete generation provider that always succeeds. -/
def gen0 : String → GenParams → Except String String :=
  fun _ _ => .ok "Paris"

/-- A concrete generation provider that always fails. -/
def genBoom : String → GenParams → Except String String :=
  fun _ _ => .error "boom"

/-- The empty cluster state: no index exists. -/
def emptyState : IndexState :=
  fun _ => none

/-- A concrete accepted-key list. -/
def keys0 : List String :=
  ["secret"]

/-! Helper lemmas about the index state and the upsert fold. -/

lemma getIndex_setIndex_self (s : IndexState) (name : String) (ds : List IndexedDocument) :
    getIndex (setIndex s name ds) name = ds := by
  simp [getIndex, setIndex]

lemma getIndex_runIndexing (kb : KnowledgeBase) (s : IndexState) (ps : List Passage) :
    getIndex (runIndexing kb s ps) kb.index_name =
      (ps.map (mkIndexedDocument kb.embedding)).foldl upsertDoc [] := by
  unfold runIndexing addTexts
  by_cases h : indexExists s kb.index_name
  · rw [if_pos h, getIndex_setIndex_self]
    have : getIndex (deleteIndex s kb.index_name) kb.index_name = [] := by
      simp [getIndex, deleteIndex]
    rw [this]
  · rw [if_neg h, getIndex_setIndex_self]
    have hnone : s kb.index_name = none := by
      simp [indexExists] at h
      exact h
    have : getIndex s kb.index_name = [] := by
      simp [getIndex, hnone]
    rw [this]

lemma upsertDoc_of_not_mem (docs : List IndexedDocument) (d : IndexedDocument)
    (h : d.id ∉ docs.map IndexedDocument.id) :
    upsertDoc docs d = docs ++ [d] := by
  unfold upsertDoc
  rw [if_neg]
  intro hany
  obtain ⟨e, he, heq⟩ := List.any_eq_true.mp hany
  exact h (List.mem_map.mpr ⟨e, he, eq_of_beq heq⟩)

lemma foldl_upsert_of_nodup :
    ∀ (ds acc : List IndexedDocument),
      (acc.map IndexedDocument.id ++ ds.map IndexedDocument.id).Nodup →
      ds.foldl upsertDoc acc = acc ++ ds
  | [], acc, _ => by simp
  | d :: ds, acc, h => by
    have hsplit := List.nodup_append.mp (by simpa using h)
    have hd_not : d.id ∉ acc.map IndexedDocument.id := by
      intro hmem
      exact hsplit.2.2 hmem (by simp)
    rw [List.foldl_cons, upsertDoc_of_not_mem acc d hd_not,
      foldl_upsert_of_nodup ds (acc ++ [d]) (by simpa [List.append_assoc] using h)]
    simp

lemma mem_foldl_upsert :
    ∀ {ds acc : List IndexedDocument} {x : IndexedDocument},
      x ∈ ds.foldl upsertDoc acc → x ∈ acc ∨ x ∈ ds
  | [], _, _, h => Or.inl h
  | d :: ds, acc, x, h => by
    rw [List.foldl_cons] at h
    rcases mem_foldl_upsert h with h1 | h1
    · unfold upsertDoc at h1
      split at h1
      · obtain ⟨e, he, heq⟩ := List.mem_map.mp h1
        by_cases hid : e.id == d.id
        · rw [if_pos hid] at heq
          exact Or.inr (by simp [← heq])
        · rw [if_neg hid] at heq
          exact Or.inl (heq ▸ he)
      · rcases List.mem_append.mp h1 with h2 | h2
        · exact Or.inl h2
        · exact Or.inr (by rw [List.mem_singleton.mp h2]; exact List.mem_cons_self d ds)
    · exact Or.inr (List.mem_cons_of_mem _ h1)

lemma mem_getIndex_runIndexing (kb : KnowledgeBase) (s : IndexState) (ps : List Passage)
    (d : IndexedDocument) (hd : d ∈ getIndex (runIndexing kb s ps) kb.index_name) :
    ∃ p ∈ ps, d = mkIndexedDocument kb.embedding p := by
  rw [getIndex_runIndexing] at hd
  rcases mem_foldl_upsert hd with h | h
  · simp at h
  · obtain ⟨p, hp, hpd⟩ := List.mem_map.mp h
    exact ⟨p, hp, hpd.symm⟩

/-- C3: indexing drops and recreates any existing index generation with the
same name; for a corpus with distinct ids, the resulting indexed-document
count equals the corpus size for every prior cluster state, and re-running the
pipeline on the same corpus yields the same count. -/
theorem C3_reindexing_idempotent_count (kb : KnowledgeBase) (s : IndexState)
    (ps : List Passage) (h : (ps.map (fun p => toString p.id)).Nodup) :
    docCount (runIndexing kb s ps) kb.index_name = ps.length ∧
    docCount (runIndexing kb (runIndexing kb s ps) ps) kb.index_name =
      docCount (runIndexing kb s ps) kb.index_name := by
  have key : ∀ s' : IndexState, docCount (runIndexing kb s' ps) kb.index_name = ps.length := by
    intro s'
    rw [docCount, getIndex_runIndexing,
      foldl_upsert_of_nodup (ps.map (mkIndexedDocument kb.embedding)) []]
    · simp
    · simpa [List.map_map, Function.comp_def, mkIndexedDocument] using h
  exact ⟨key s, by rw [key, key]⟩

theorem C3_reindexing_idempotent_count_witness :
    (([p1, p2].map (fun p => toString p.id)).Nodup) ∧
    (docCount (runIndexing kb0 emptyState [p1, p2]) kb0.index_name = 2 ∧
      docCount (runIndexing kb0 (runIndexing kb0 emptyState [p1, p2]) [p1, p2])
          kb0.index_name =
        docCount (runIndexing kb0 emptyState [p1, p2]) kb0.index_name) :=
  ⟨by decide, C3_reindexing_idempotent_count kb0 emptyState [p1, p2] (by decide)⟩

/-- C6: every document stored by the Indexing Pipeline comes from a corpus
passage; its indexed text is exactly `title + "\n" + text`, its vector is the
embedding of that blob, and its key is the passage id (as a string). -/
theorem C6_blob_and_key (kb : KnowledgeBase) (s : IndexState) (ps : List Passage)
    (d : IndexedDocument) (hd : d ∈ getIndex (runIndexing kb s ps) kb.index_name) :
    ∃ p ∈ ps, d = mkIndexedDocument kb.embedding p ∧
      d.text = p.title ++ "\n" ++ p.text ∧
      d.vector = kb.embedding (p.title ++ "\n" ++ p.text) ∧
      d.id = toString p.id := by
  obtain ⟨p, hp, rfl⟩ := mem_getIndex_runIndexing kb s ps d hd
  exact ⟨p, hp, rfl, rfl, rfl, rfl⟩

theorem C6_blob_and_key_witness :
    (mkIndexedDocument emb0 p1 ∈ getIndex (runIndexing kb0 emptyState [p1]) kb0.index_name) ∧
    (∃ p ∈ [p1], mkIndexedDocument emb0 p1 = mkIndexedDocument kb0.embedding p ∧
      (mkIndexedDocument emb0 p1).text = p.title ++ "\n" ++ p.text ∧
      (mkIndexedDocument emb0 p1).vector = kb0.embedding (p.title ++ "\n" ++ p.text) ∧
      (mkIndexedDocument emb0 p1).id = toString p.id) :=
  ⟨by decide, C6_blob_and_key kb0 emptyState [p1] (mkIndexedDocument emb0 p1) (by decide)⟩

/-- C9: the vectors stored at indexing time and the query vector used at
retrieval time are produced by one and the same embedding function — the
`embedding` of the knowledge base — so query and document vectors live in the
same embedding space. -/
theorem C9_single_embedding_space (kb : KnowledgeBase) (s : IndexState)
    (ps : List Passage) (d : IndexedDocument)
    (hd : d ∈ getIndex (runIndexing kb s ps) kb.index_name) :
    ∃ E : String → List Rat, (∀ q, queryVector kb q = E q) ∧ d.vector = E d.text := by
  obtain ⟨p, _, rfl⟩ := mem_getIndex_runIndexing kb s ps d hd
  exact ⟨kb.embedding, fun _ => rfl, rfl⟩

theorem C9_single_embedding_space_witness :
    (mkIndexedDocument emb0 p2 ∈ getIndex (runIndexing kb0 emptyState [p2]) kb0.index_name) ∧
    (∃ E : String → List Rat, (∀ q, queryVector kb0 q = E q) ∧
      (mkIndexedDocument emb0 p2).vector = E (mkIndexedDocument emb0 p2).text) :=
  ⟨by decide,
    C9_single_embedding_space kb0 emptyState [p2] (mkIndexedDocument emb0 p2) (by decide)⟩

/-- C10: the index generation written to is not deterministic across runs —
two valid draws of `random.randint(0,2000)` yield different index names; every
valid draw lands in the 2001-name pool `lab-langchain-test-0` ..
`lab-langchain-test-2000`; and the drop-and-recreate rebuild deletes an index
exactly when the drawn name collides with an existing one. -/
theorem C10_random_index_generation :
    (∃ r1 r2, r1 ≤ 2000 ∧ r2 ≤ 2000 ∧ indexName r1 ≠ indexName r2) ∧
    (∀ r, r ≤ 2000 → indexName r ∈ (List.range 2001).map indexName) ∧
    (∀ (kb : KnowledgeBase) (s : IndexState) (ps : List Passage),
      indexExists s kb.index_name = false → runIndexing kb s ps = addTexts kb s ps) ∧
    (∀ (kb : KnowledgeBase) (s : IndexState) (ps : List Passage),
      indexExists s kb.index_name = true →
        runIndexing kb s ps = addTexts kb (deleteIndex s kb.index_name) ps) := by
  refine ⟨⟨0, 1, by decide, by decide, by decide⟩, ?_, ?_, ?_⟩
  · intro r hr
    exact List.mem_map.mpr ⟨r, List.mem_range.mpr (by omega), rfl⟩
  · intro kb s ps h
    simp [runIndexing, h]
  · intro kb s ps h
    simp [runIndexing, h]

theorem C10_random_index_generation_witness :
    (indexExists emptyState kb0.index_name = false) ∧
    (runIndexing kb0 emptyState [p1] = addTexts kb0 emptyState [p1]) :=
  ⟨by decide, C10_random_index_generation.2.2.1 kb0 emptyState [p1] (by decide)⟩

/-- C1: whenever the pipeline (or the endpoint fronting it) produces a
`QueryResponse` for a non-empty query string, the response's `query` field is
exactly the input query string. -/
theorem C1_query_echoed (kb : KnowledgeBase) (gen : String → GenParams → Except String String)
    (k : Nat) (keys : List String) (s : IndexState) (q : String) (r : QueryResponse)
    (req : RawRequest) (_hq : q ≠ "") :
    (answer kb gen k s q = .ok r → r.query = q) ∧
    (req.query = some q → handleQuery kb gen k keys s req = .ok r → r.query = q) := by
  have core : ∀ res : QueryResponse, answer kb gen k s q = .ok res → res.query = q := by
    intro res h
    simp only [answer, answerTrace] at h
    split at h
    · exact absurd h (by simp)
    · rw [(Except.ok.inj h).symm]
  refine ⟨core r, fun hreq hok => ?_⟩
  simp only [handleQuery, handleQueryTrace] at hok
  split at hok
  · exact absurd hok (by simp)
  · rename_i key hkey
    split at hok
    · rw [hreq] at hok
      simp only at hok
      split at hok
      · rename_i res hres
        refine core r ?_
        rw [answer, hres, (HttpResponse.ok.inj hok)]
      · exact absurd hok (by simp)
    · exact absurd hok (by simp)

theorem C1_query_echoed_witness :
    (("What is the capital of France?" : String) ≠ "") ∧
    ((answer kb0 gen0 4 emptyState "What is the capital of France?" =
        .ok { query := "What is the capital of France?", result := "Paris",
              source_documents := [] } →
      ({ query := "What is the capital of France?", result := "Paris",
         source_documents := [] } : QueryResponse).query =
        "What is the capital of France?") ∧
     (({ apikey := some "secret", query := some "What is the capital of France?" } :
          RawRequest).query = some "What is the capital of France?" →
      handleQuery kb0 gen0 4 keys0 emptyState
          { apikey := some "secret", query := some "What is the capital of France?" } =
        .ok { query := "What is the capital of France?", result := "Paris",
              source_documents := [] } →
      ({ query := "What is the capital of France?", result := "Paris",
         source_documents := [] } : QueryResponse).query =
        "What is the capital of France?")) :=
  ⟨by decide,
    C1_query_echoed kb0 gen0 4 keys0 emptyState "What is the capital of France?"
      { query := "What is the capital of France?", result := "Paris",
        source_documents := [] }
      { apikey := some "secret", query := some "What is the capital of France?" }
      (by decide)⟩

/-- C7: a valid query against an empty index completes successfully — the
pipeline retrieves nothing, generates from the empty-context prompt, and
returns a `QueryResponse` with empty `source_documents` rather than an
error. -/
theorem C7_empty_index_succeeds (kb : KnowledgeBase)
    (gen : String → GenParams → Except String String) (k : Nat) (s : IndexState)
    (q t : String) (hempty : getIndex s kb.index_name = [])
    (hgen : gen (buildPrompt [] q) parameters = .ok t) :
    answer kb gen k s q = .ok { query := q, result := t, source_documents := [] } := by
  have hret : retrieve [] (queryVector kb q) k = [] := by
    simp [retrieve]
  simp only [answer, answerTrace, hempty, hret, hgen, List.map_nil]

theorem C7_empty_index_succeeds_witness :
    (getIndex emptyState kb0.index_name = []) ∧
    (gen0 (buildPrompt [] "who?") parameters = .ok "Paris") ∧
    (answer kb0 gen0 4 emptyState "who?" =
      .ok { query := "who?", result := "Paris", source_documents := [] }) :=
  ⟨by decide, rfl,
    C7_empty_index_succeeds kb0 gen0 4 emptyState "who?" "Paris" (by decide) rfl⟩

/-- C8: every generation-provider call the pipeline makes uses the fixed
notebook configuration `parameters` — greedy decoding with at least 1 and at
most 50 new tokens. -/
theorem C8_fixed_generation_parameters (kb : KnowledgeBase)
    (gen : String → GenParams → Except String String) (k : Nat) (s : IndexState)
    (q prompt : String) (pr : GenParams)
    (h : ProviderCall.generate prompt pr ∈ (answerTrace kb gen k s q).2) :
    pr = parameters ∧ pr.decoding_method = "greedy" ∧
    1 ≤ pr.min_new_tokens ∧ pr.min_new_tokens ≤ pr.max_new_tokens ∧
    pr.max_new_tokens = 50 := by
  have hpr : pr = parameters := by
    simp only [answerTrace, List.mem_cons] at h
    rcases h with h | h | h | h
    · exact absurd h (by simp)
    · exact absurd h (by simp)
    · exact (ProviderCall.generate.inj h).2
    · exact absurd h (by simp)
  subst hpr
  exact ⟨rfl, rfl, le_refl 1, by decide, rfl⟩

theorem C8_fixed_generation_parameters_witness :
    (ProviderCall.generate (buildPrompt [] "who?") parameters ∈
      (answerTrace kb0 gen0 4 emptyState "who?").2) ∧
    (parameters = parameters ∧ parameters.decoding_method = "greedy" ∧
      1 ≤ parameters.min_new_tokens ∧
      parameters.min_new_tokens ≤ parameters.max_new_tokens ∧
      parameters.max_new_tokens = 50) :=
  ⟨by decide,
    C8_fixed_generation_parameters kb0 gen0 4 emptyState "who?" (buildPrompt [] "who?")
      parameters (by decide)⟩

lemma retrieve_sorted (docs : List IndexedDocument) (qv : List Rat) (k : Nat) :
    List.Sorted (fun a b => simScore qv b ≤ simScore qv a) (retrieve docs qv k) := by
  have hsorted : List.Sorted (fun a b => simScore qv b ≤ simScore qv a)
      (docs.insertionSort (fun a b => simScore qv b ≤ simScore qv a)) := by
    haveI : IsTotal IndexedDocument (fun a b => simScore qv b ≤ simScore qv a) :=
      ⟨fun a b => le_total _ _⟩
    haveI : IsTrans IndexedDocument (fun a b => simScore qv b ≤ simScore qv a) :=
      ⟨fun _ _ _ hab hbc => le_trans hbc hab⟩
    exact List.sorted_insertionSort _ _
  exact hsorted.sublist (List.take_sublist _ _)

/-- C4: every `QueryResponse` the pipeline produces carries the retrieved
documents: at most `k` of them, ranked by descending dot-product similarity of
their stored vectors to the embedded query vector. -/
theorem C4_topk_ranked_by_similarity (kb : KnowledgeBase)
    (gen : String → GenParams → Except String String) (k : Nat) (s : IndexState)
    (q : String) (r : QueryResponse) (h : answer kb gen k s q = .ok r) :
    r.source_documents =
      (retrieve (getIndex s kb.index_name) (queryVector kb q) k).map toDocument ∧
    r.source_documents.length ≤ k ∧
    List.Sorted (fun a b => simScore (queryVector kb q) b ≤ simScore (queryVector kb q) a)
      (retrieve (getIndex s kb.index_name) (queryVector kb q) k) := by
  have hdocs : r.source_documents =
      (retrieve (getIndex s kb.index_name) (queryVector kb q) k).map toDocument := by
    simp only [answer, answerTrace] at h
    split at h
    · exact absurd h (by simp)
    · rw [(Except.ok.inj h).symm]
  refine ⟨hdocs, ?_, retrieve_sorted _ _ _⟩
  rw [hdocs, List.length_map, retrieve, List.length_take]
  exact min_le_left _ _

theorem C4_topk_ranked_by_similarity_witness :
    (answer kb0 gen0 4 emptyState "who?" =
      .ok { query := "who?", result := "Paris", source_documents := [] }) ∧
    (({ query := "who?", result := "Paris", source_documents := [] } :
        QueryResponse).source_documents =
      (retrieve (getIndex emptyState kb0.index_name) (queryVector kb0 "who?") 4).map
        toDocument ∧
    ({ query := "who?", result := "Paris", source_documents := [] } :
        QueryResponse).source_documents.length ≤ 4 ∧
    List.Sorted
      (fun a b => simScore (queryVector kb0 "who?") b ≤ simScore (queryVector kb0 "who?") a)
      (retrieve (getIndex emptyState kb0.index_name) (queryVector kb0 "who?") 4)) :=
  ⟨rfl,
    C4_topk_ranked_by_similarity kb0 gen0 4 emptyState "who?"
      { query := "who?", result := "Paris", source_documents := [] } rfl⟩

/-- C5: the endpoint returns 401 with no `QueryResponse` body when the
`apikey` header is absent or invalid, 200 with the pipeline's `QueryResponse`
when the key is valid and processing succeeds, and 500 with a
`{detail: string}` body on internal failure. -/
theorem C5_endpoint_status_contract (kb : KnowledgeBase)
    (gen : String → GenParams → Except String String) (k : Nat) (keys : List String)
    (s : IndexState) (req : RawRequest) (q : String) (r : QueryResponse) (e : String) :
    (authOk keys req.apikey = false →
      handleQuery kb gen k keys s req = .unauthorized ∧
      status (handleQuery kb gen k keys s req) = 401 ∧
      responseBody (handleQuery kb gen k keys s req) = none) ∧
    (authOk keys req.apikey = true → req.query = some q → answer kb gen k s q = .ok r →
      handleQuery kb gen k keys s req = .ok r ∧
      status (handleQuery kb gen k keys s req) = 200 ∧
      responseBody (handleQuery kb gen k keys s req) = some r) ∧
    (authOk keys req.apikey = true → req.query = some q → answer kb gen k s q = .error e →
      handleQuery kb gen k keys s req = .serverError e ∧
      status (handleQuery kb gen k keys s req) = 500 ∧
      errorBody (handleQuery kb gen k keys s req) = some { detail := e }) := by
  refine ⟨fun hauth => ?_, fun hauth hq hans => ?_, fun hauth hq hans => ?_⟩
  · cases hk : req.apikey with
    | none => simp [handleQuery, handleQueryTrace, hk, status, responseBody]
    | some key =>
      rw [hk] at hauth
      simp only [authOk] at hauth
      simp [handleQuery, handleQueryTrace, hk, hauth, status, responseBody]
  · cases hk : req.apikey with
    | none => rw [hk] at hauth; exact absurd hauth (by simp [authOk])
    | some key =>
      rw [hk] at hauth
      simp only [authOk] at hauth
      rw [answer] at hans
      simp [handleQuery, handleQueryTrace, hk, hauth, hq, hans, status, responseBody]
  · cases hk : req.apikey with
    | none => rw [hk] at hauth; exact absurd hauth (by simp [authOk])
    | some key =>
      rw [hk] at hauth
      simp only [authOk] at hauth
      rw [answer] at hans
      simp [handleQuery, handleQueryTrace, hk, hauth, hq, hans, status, errorBody]

theorem C5_endpoint_status_contract_witness :
    (authOk keys0 (none : Option String) = false ∧
      handleQuery kb0 gen0 4 keys0 emptyState { apikey := none, query := some "who?" } =
        .unauthorized ∧
      status (handleQuery kb0 gen0 4 keys0 emptyState
          { apikey := none, query := some "who?" }) = 401 ∧
      responseBody (handleQuery kb0 gen0 4 keys0 emptyState
          { apikey := none, query := some "who?" }) = none) ∧
    (authOk keys0 (some "secret") = true ∧
      answer kb0 gen0 4 emptyState "who?" =
        .ok { query := "who?", result := "Paris", source_documents := [] } ∧
      handleQuery kb0 gen0 4 keys0 emptyState
          { apikey := some "secret", query := some "who?" } =
        .ok { query := "who?", result := "Paris", source_documents := [] }) ∧
    (answer kb0 genBoom 4 emptyState "who?" = .error "boom" ∧
      handleQuery kb0 genBoom 4 keys0 emptyState
          { apikey := some "secret", query := some "who?" } = .serverError "boom" ∧
      errorBody (handleQuery kb0 genBoom 4 keys0 emptyState
          { apikey := some "secret", query := some "who?" }) = some { detail := "boom" }) :=
  ⟨⟨by decide,
      (C5_endpoint_status_contract kb0 gen0 4 keys0 emptyState
        { apikey := none, query := some "who?" } "who?"
        { query := "who?", result := "Paris", source_documents := [] } "boom").1
        (by decide)⟩,
   ⟨by decide, rfl,
      ((C5_endpoint_status_contract kb0 gen0 4 keys0 emptyState
        { apikey := some "secret", query := some "who?" } "who?"
        { query := "who?", result := "Paris", source_documents := [] } "boom").2.1
        (by decide) rfl rfl).1⟩,
   ⟨rfl,
      ((C5_endpoint_status_contract kb0 genBoom 4 keys0 emptyState
        { apikey := some "secret", query := some "who?" } "who?"
        { query := "who?", result := "Paris", source_documents := [] } "boom").2.2
        (by decide) rfl rfl).1,
      ((C5_endpoint_status_contract kb0 genBoom 4 keys0 emptyState
        { apikey := some "secret", query := some "who?" } "who?"
        { query := "who?", result := "Paris", source_documents := [] } "boom").2.2
        (by decide) rfl rfl).2.2⟩⟩

/-- C2 counterexample: an authenticated request whose `query` field is the
empty string is NOT rejected — the empty string satisfies the `QueryRequest`
schema (`query` present, of type string, with no minimum length), so the
request runs the pipeline: the provider-call trace is non-empty, a generation
call is among the calls made, and the endpoint answers 200. -/
theorem C2_empty_query_counterexample :
    (handleQueryTrace kb0 gen0 4 keys0 emptyState
        { apikey := some "secret", query := some "" }).2 ≠ [] ∧
    ProviderCall.generate (buildPrompt [] "") parameters ∈
      (handleQueryTrace kb0 gen0 4 keys0 emptyState
        { apikey := some "secret", query := some "" }).2 ∧
    (handleQueryTrace kb0 gen0 4 keys0 emptyState
        { apikey := some "secret", query := some "" }).1 =
      .ok { query := "", result := "Paris", source_documents := [] } :=
  ⟨by decide, by decide, rfl⟩

/-- C2 as amended: a request whose `query` field is missing is rejected before
any provider call — the trace is empty and no `QueryResponse` is produced.
(An empty-string `query` is schema-valid and is processed normally.) -/
theorem C2_missing_query_rejected (kb : KnowledgeBase)
    (gen : String → GenParams → Except String String) (k : Nat) (keys : List String)
    (s : IndexState) (req : RawRequest) (h : req.query = none) :
    (handleQueryTrace kb gen k keys s req).2 = [] ∧
    ∀ r : QueryResponse, (handleQueryTrace kb gen k keys s req).1 ≠ .ok r := by
  cases hk : req.apikey with
  | none => simp [handleQueryTrace, hk]
  | some key =>
    by_cases hv : validKey keys key
    · simp [handleQueryTrace, hk, hv, h]
    · simp [handleQueryTrace, hk, hv]

theorem C2_missing_query_rejected_witness :
    (({ apikey := some "secret", query := none } : RawRequest).query = none) ∧
    ((handleQueryTrace kb0 gen0 4 keys0 emptyState
        { apikey := some "secret", query := none }).2 = [] ∧
      ∀ r : QueryResponse, (handleQueryTrace kb0 gen0 4 keys0 emptyState
        { apikey := some "secret", query := none }).1 ≠ .ok r) :=
  ⟨rfl,
    C2_missing_query_rejected kb0 gen0 4 keys0 emptyState
      { apikey := some "secret", query := none } rfl⟩

end RagLab
